import Mathlib

/-!
Shallow embedding of the real-time speech-to-text core of
`app/app_hailo_whisper.py` and `common/timing_utils.py`, together with
theorems checking the specification's claims about it.

Conventions of the embedding:
* audio samples and seconds are rationals (`ℚ`), standing for the
  floating-point values of the source;
* the shared audio buffer is a `List ℚ`, appended at the tail and
  consumed at the head, exactly as the NumPy array in the source;
* Python `int(...)` truncation toward zero is `pyInt`;
* collaborator calls that may raise are `Except String`-valued oracles;
* console output is a list of printed strings (or, for the worker loop,
  a list of events recording submissions, sleeps, polls, prints, logs).
-/

namespace RespeakerWhisper

/-- Modelled from the spec: `SAMPLE_RATE` is imported from
`common/audio_utils.py`, which is outside the embedded sources; the spec
fixes the sample rate at 16000 (scenario "sample rate 16000, chunk
duration 5s ⇒ required = 80000"). -/
def SAMPLE_RATE : ℚ := 16000

/-- Python `int(q)`: truncation toward zero. Since `q.den > 0`, this is
exactly the truncating division of the numerator by the denominator. -/
def pyInt (q : ℚ) : ℤ :=
  Int.tdiv q.num (q.den : ℤ)

/-- Python `str.strip()` with no argument: remove leading and trailing
whitespace characters. -/
def pyStrip (s : String) : String :=
  ⟨((s.data.dropWhile Char.isWhitespace).reverse.dropWhile
      Char.isWhitespace).reverse⟩

/-- `required_samples = int(chunk_length * SAMPLE_RATE)`
(app_hailo_whisper.py line 148). -/
def requiredSamples (chunk_length : ℚ) : ℤ :=
  pyInt (chunk_length * SAMPLE_RATE)

/-- The buffer-extraction step of `transcription_worker`
(app_hailo_whisper.py lines 150-154): under the lock, if
`len(audio_buffer) >= required_samples and required_samples > 0`, the
first `required_samples` samples are copied out and removed from the
buffer; otherwise no chunk is produced and the buffer is untouched. -/
def tryExtract (buf : List ℚ) (required : ℤ) : Option (List ℚ) × List ℚ :=
  if required ≤ (buf.length : ℤ) ∧ 0 < required then
    (some (buf.take required.toNat), buf.drop required.toNat)
  else
    (none, buf)

/-- One operation on the shared buffer: an append by `audio_callback`
(line 137, `np.concatenate([audio_buffer, indata[:, 0]])`) or an
extraction attempt by the worker. -/
inductive BufOp where
  | append (samples : List ℚ)
  | extract (required : ℤ)
deriving DecidableEq

/-- Shared-buffer state together with the chunks successfully extracted
so far, in order. -/
structure BufState where
  buf : List ℚ
  extracted : List (List ℚ)
deriving DecidableEq

/-- Apply one buffer operation. -/
def applyOp (s : BufState) : BufOp → BufState
  | .append xs => ⟨s.buf ++ xs, s.extracted⟩
  | .extract n =>
    match tryExtract s.buf n with
    | (some c, rest) => ⟨rest, s.extracted ++ [c]⟩
    | (none, rest) => ⟨rest, s.extracted⟩

/-- Run a sequence of buffer operations from the empty buffer
(line 127, `audio_buffer = np.array([], dtype=np.float32)`). -/
def runOps (ops : List BufOp) : BufState :=
  ops.foldl applyOp ⟨[], []⟩

/-- The payloads of the append operations, in order. -/
def appendsOf (ops : List BufOp) : List (List ℚ) :=
  ops.filterMap fun o =>
    match o with
    | .append xs => some xs
    | .extract _ => none

/-- Chunk-offset computation of `transcription_worker`
(app_hailo_whisper.py lines 166-171): when the trimmer returned an
onset, `chunk_offset = start_time - 0.2`, clamped below at 0; when the
onset is missing, `chunk_offset = 0`. -/
def chunkOffset : Option ℚ → ℚ
  | some start_time =>
    let c := start_time - 1/5
    if c < 0 then 0 else c
  | none => 0

/-- `use_vad = not fast_mode` (app_hailo_whisper.py line 162). -/
def useVad (fast_mode : Bool) : Bool := !fast_mode

/-- Modelled from the spec: `improve_input_audio` is defined in
`common/preprocessing.py`, which is outside the embedded sources. Per
the spec's trimmer contract,
`trim(audio, enableVad, applyGain) -> (trimmedAudio, onsetSecondsOrNone)`
and with VAD disabled the onset is always "none". The trimming transform
itself and the VAD onset detection are abstract parameters `trimF` and
`vadOnset`. -/
def improve_input_audio (trimF : List ℚ → Bool → List ℚ)
    (vadOnset : List ℚ → Option ℚ) (audio : List ℚ) (vad : Bool) :
    List ℚ × Option ℚ :=
  (trimF audio vad, if vad then vadOnset audio else none)

/-- The VAD-and-offset stage of one worker iteration
(app_hailo_whisper.py lines 161-171): compute `use_vad`, call the
trimmer with it, and derive the chunk offset from the returned onset.
Returns (vad flag passed to the trimmer, trimmer result, chunk offset). -/
def vadStage (trimF : List ℚ → Bool → List ℚ)
    (vadOnset : List ℚ → Option ℚ) (fast_mode : Bool) (chunk : List ℚ) :
    Bool × (List ℚ × Option ℚ) × ℚ :=
  let vad := useVad fast_mode
  let r := improve_input_audio trimF vadOnset chunk vad
  (vad, r, chunkOffset r.2)

/-- The unclear-audio marker printed when a non-meaningful transcription
coincides with significant audio level (app_hailo_whisper.py lines
206-209): `"[Transcription] (unclear)"` in stream mode,
`"[Transcription] (unclear audio)"` otherwise. -/
def unclearMarker (stream_output : Bool) : String :=
  if stream_output then "[Transcription] (unclear)"
  else "[Transcription] (unclear audio)"

/-- The per-frame output policy of `transcription_worker`
(app_hailo_whisper.py lines 189-209). `peak` is
`np.max(np.abs(improved_audio))`. Each printed string is one list
element; in stream mode the meaningful branch prints the prefix, then
each character, then an empty `print()` (modelled as `""`). -/
def frameOutput (transcription : String) (peak : ℚ) (stream_output : Bool) :
    List String :=
  let s := pyStrip transcription
  if s ≠ "" ∧ s ≠ "." then
    if stream_output then
      "[Transcription] " :: transcription.data.map Char.toString ++ [""]
    else
      ["[Transcription] " ++ transcription]
  else if s = "." then
    []
  else if 1/20 < peak then
    [unclearMarker stream_output]
  else
    []

/-- The source's classification of a transcription as meaningful
(app_hailo_whisper.py line 189:
`transcription.strip() and transcription.strip() != "."`). -/
def meaningfulB (transcription : String) : Bool :=
  !(pyStrip transcription == "") && !(pyStrip transcription == ".")

/-- `np.max(np.abs(l))` for a nonempty list, and 0 on the empty list. -/
def peakAmp (l : List ℚ) : ℚ :=
  l.foldr (fun x m => max |x| m) 0

/-- An observable event of one worker iteration: a frame submitted to
the inference backend (`whisper_hailo.send_data`, line 183), a
`time.sleep` throttle, a poll (`whisper_hailo.get_transcription`,
line 185), a printed output string, or a logged error
(`print(f"Error: {e}")`, line 211). -/
inductive Ev (μ : Type) where
  | submit (m : μ)
  | sleep (d : ℚ)
  | poll
  | print (s : String)
  | log (s : String)
deriving DecidableEq

/-- The per-frame loop of `transcription_worker`
(app_hailo_whisper.py lines 182-209): for each mel spectrogram in
order, submit it, sleep 0.05 s, poll for the transcription (the
poll-and-sanitize chain is the oracle `transcribe`, which may raise),
then apply the output policy. A raised fault aborts the loop; the
enclosing `except` logs it (line 211). -/
def frameLoop {μ : Type} (transcribe : μ → Except String String)
    (peak : ℚ) (stream_output : Bool) : List μ → List (Ev μ)
  | [] => []
  | m :: ms =>
    Ev.submit m :: Ev.sleep (1/20) :: Ev.poll ::
      (match transcribe m with
       | .error e => [Ev.log ("Error: " ++ e)]
       | .ok t =>
         (frameOutput t peak stream_output).map Ev.print ++
           frameLoop transcribe peak stream_output ms)

/-- The external collaborators called inside the worker's `try` block:
the voice-activity trimmer, the feature extractor (`preprocess`), and
the submit-sleep-poll-sanitize chain per frame. Each may raise. -/
structure Collab (μ : Type) where
  trim : List ℚ → Bool → Except String (List ℚ × Option ℚ)
  features : List ℚ → ℚ → ℚ → Except String (List μ)
  transcribe : μ → Except String String

/-- Processing of one successfully extracted chunk
(app_hailo_whisper.py lines 160-211): trim with `use_vad`, compute the
chunk offset, extract mel spectrograms, run the frame loop; any raised
fault is caught and logged, ending the chunk's processing. -/
def chunkProcess {μ : Type} (c : Collab μ) (fast_mode stream_output : Bool)
    (chunk_length : ℚ) (chunk : List ℚ) : List (Ev μ) :=
  match c.trim chunk (useVad fast_mode) with
  | .error e => [Ev.log ("Error: " ++ e)]
  | .ok (improved, onset) =>
    match c.features improved chunk_length (chunkOffset onset) with
    | .error e => [Ev.log ("Error: " ++ e)]
    | .ok mels => frameLoop c.transcribe (peakAmp improved) stream_output mels

/-- One iteration of the worker loop (app_hailo_whisper.py lines
144-211): attempt extraction under the lock; if a chunk was produced
(`audio_chunk is not None and len(audio_chunk) > 0`), process it.
Returns the new buffer and the iteration's event trace. -/
def workerStep {μ : Type} (c : Collab μ) (fast_mode stream_output : Bool)
    (chunk_length : ℚ) (buf : List ℚ) : List ℚ × List (Ev μ) :=
  let r := tryExtract buf (requiredSamples chunk_length)
  match r.1 with
  | some chunk =>
    (r.2,
      if 0 < chunk.length then
        chunkProcess c fast_mode stream_output chunk_length chunk
      else [])
  | none => (r.2, [])

/-- The printed output strings of a trace (log lines excluded). -/
def printsOf {μ : Type} (tr : List (Ev μ)) : List String :=
  tr.filterMap fun e =>
    match e with
    | .print s => some s
    | _ => none

/-- The logged error lines of a trace. -/
def logsOf {μ : Type} (tr : List (Ev μ)) : List String :=
  tr.filterMap fun e =>
    match e with
    | .log s => some s
    | _ => none

/-- The chunks obtained by `k` successive extraction attempts with the
same requested count, stopping at the first not-ready answer: the
sequence of windows the worker processes, in arrival order. -/
def iterChunks (n : ℤ) : ℕ → List ℚ → List (List ℚ)
  | 0, _ => []
  | k + 1, buf =>
    match tryExtract buf n with
    | (some c, rest) => c :: iterChunks n k rest
    | (none, _) => []

/-- `"tiny" in variant` (Python substring test, app_hailo_whisper.py
line 268). -/
def pyIn (needle hay : String) : Bool :=
  hay.toList.tails.any fun t => needle.toList.isPrefixOf t

/-- Default chunk length selection of `main`
(app_hailo_whisper.py line 268): `10 if "tiny" in variant else 5`. -/
def defaultChunkLength (variant : String) : ℚ :=
  if pyIn "tiny" variant then 10 else 5

/-- Chunk length resolution of `main` (app_hailo_whisper.py lines
264-268): the `--chunk-length` argument when given, else the
model-specific default. No validation is applied. -/
def resolveChunkLength (chunk_length_arg : Option ℚ) (variant : String) : ℚ :=
  chunk_length_arg.getD (defaultChunkLength variant)

/-- The startup path of `main` before the real-time loop
(app_hailo_whisper.py lines 244-270): the only fatal startup checks are
HEF resource resolution (`get_hef_path` raises when the registry entry
or the file is missing, modelled by `hef_ok`); the chunk length is
resolved without any validation and handed to `real_time_stt`. -/
def mainStartup (hef_ok : Bool) (chunk_length_arg : Option ℚ)
    (variant : String) : Except String ℚ :=
  if hef_ok then Except.ok (resolveChunkLength chunk_length_arg variant)
  else Except.error "HEF not found"

/-- `timed_print` (timing_utils.py lines 13-16): prints the message only
when the timing-display flag is set; the return value is the list of
printed lines. -/
def timed_print (SHOW_TIMING : Bool) (message : String) : List String :=
  if SHOW_TIMING then [message] else []

/-- The wrapper produced by the `time_function` decorator
(timing_utils.py lines 18-29), as a function of the wrapped function
`f`, its name, the elapsed time observed between the two clock reads,
the timing-display flag, and the argument. Returns the wrapped call's
result together with the printed lines. -/
def time_function {α β : Type} (f : α → β) (fname : String) (elapsed : ℚ)
    (SHOW_TIMING : Bool) (x : α) : β × List String :=
  if SHOW_TIMING then
    (f x, timed_print SHOW_TIMING ("[" ++ fname ++ "] " ++ toString elapsed ++ "s"))
  else
    (f x, [])

/-- Claim C1's extraction dichotomy, as stated: for
`n = requiredSamples chunk_length`, either the step removes and returns
exactly the first `n` samples, or the buffer holds fewer than `n`
samples and the step returns not-ready leaving the buffer unchanged. -/
def extractDichotomy (buf : List ℚ) (chunk_length : ℚ) : Prop :=
  (∃ chunk rest,
      tryExtract buf (requiredSamples chunk_length) = (some chunk, rest) ∧
      (chunk.length : ℤ) = requiredSamples chunk_length ∧ chunk ++ rest = buf) ∨
  ((buf.length : ℤ) < requiredSamples chunk_length ∧
      tryExtract buf (requiredSamples chunk_length) = (none, buf))

/-- A concrete collaborator used to exhibit a mid-chunk inference fault:
trimming succeeds without onset, the extractor produces two frames, the
first frame transcribes to "hello" and the second raises "boom". -/
def cexCollab : Collab ℕ where
  trim := fun chunk _ => Except.ok (chunk, none)
  features := fun _ _ _ => Except.ok [0, 1]
  transcribe := fun m => if m = 0 then Except.ok "hello" else Except.error "boom"

/-- A concrete collaborator whose trimming call raises "boom". -/
def cexTrim : Collab ℕ where
  trim := fun _ _ => Except.error "boom"
  features := fun _ _ _ => Except.ok []
  transcribe := fun _ => Except.error "boom"

/- Helper lemmas. -/

theorem pyInt_intCast (n : ℤ) : pyInt (n : ℚ) = n := by
  simp [pyInt]

theorem requiredSamples_eq_of (chunk_length : ℚ) (n : ℤ)
    (h : chunk_length * SAMPLE_RATE = (n : ℚ)) :
    requiredSamples chunk_length = n := by
  rw [requiredSamples, h, pyInt_intCast]

theorem applyOp_join (s : BufState) (op : BufOp) :
    ((applyOp s op).extracted).flatten ++ (applyOp s op).buf
      = s.extracted.flatten ++ (s.buf ++ (appendsOf [op]).flatten) := by
  cases op with
  | append xs => simp [applyOp, appendsOf]
  | extract n =>
    by_cases h : n ≤ (s.buf.length : ℤ) ∧ 0 < n
    · simp [applyOp, tryExtract, h, appendsOf, List.append_assoc]
    · simp [applyOp, tryExtract, h, appendsOf]

theorem foldl_applyOp_join (ops : List BufOp) (s : BufState) :
    ((ops.foldl applyOp s).extracted).flatten ++ (ops.foldl applyOp s).buf
      = s.extracted.flatten ++ (s.buf ++ (appendsOf ops).flatten) := by
  induction ops generalizing s with
  | nil => simp [appendsOf]
  | cons op ops ih =>
    rw [List.foldl_cons, ih (applyOp s op)]
    have h := applyOp_join s op
    cases op with
    | append xs =>
      simp only [appendsOf, List.filterMap_cons] at h ⊢
      simp at h ⊢
      rw [← List.append_assoc, h]
      simp [List.append_assoc]
    | extract n =>
      simp only [appendsOf, List.filterMap_cons] at h ⊢
      simp at h ⊢
      rw [← List.append_assoc, h]
      rw [List.append_assoc]

theorem frameLoop_ok_shape {μ : Type} (transcribe : μ → Except String String)
    (ts : μ → String) (peak : ℚ) (stream_output : Bool) (ms : List μ)
    (h : ∀ x ∈ ms, transcribe x = Except.ok (ts x)) :
    frameLoop transcribe peak stream_output ms
      = (ms.map fun m =>
          Ev.submit m :: Ev.sleep (1/20) :: Ev.poll ::
            (frameOutput (ts m) peak stream_output).map Ev.print).flatten := by
  induction ms with
  | nil => simp [frameLoop]
  | cons m ms ih =>
    have hm : transcribe m = Except.ok (ts m) := h m (List.mem_cons_self m ms)
    rw [frameLoop, hm]
    simp only [List.map_cons, List.flatten_cons]
    rw [ih fun x hx => h x (List.mem_cons_of_mem m hx)]
    simp

theorem frameLoop_fault {μ : Type} (transcribe : μ → Except String String)
    (ts : μ → String) (peak : ℚ) (stream_output : Bool)
    (ms1 ms2 : List μ) (m : μ) (e : String)
    (h1 : ∀ x ∈ ms1, transcribe x = Except.ok (ts x))
    (h2 : transcribe m = Except.error e) :
    frameLoop transcribe peak stream_output (ms1 ++ m :: ms2)
      = frameLoop transcribe peak stream_output ms1
          ++ [Ev.submit m, Ev.sleep (1/20), Ev.poll, Ev.log ("Error: " ++ e)] := by
  induction ms1 with
  | nil =>
    simp only [List.nil_append, frameLoop, h2]
  | cons x ms1 ih =>
    have hx : transcribe x = Except.ok (ts x) := h1 x (List.mem_cons_self x ms1)
    simp only [List.cons_append, frameLoop, hx]
    rw [List.append_eq, ih fun y hy => h1 y (List.mem_cons_of_mem x hy)]
    simp [List.append_assoc]

theorem iterChunks_join (n : ℤ) (k : ℕ) (buf : List ℚ) :
    (iterChunks n k buf).flatten
      = buf.take ((iterChunks n k buf).length * n.toNat) := by
  induction k generalizing buf with
  | zero => simp [iterChunks]
  | succ k ih =>
    by_cases h : n ≤ (buf.length : ℤ) ∧ 0 < n
    · rw [iterChunks]
      simp only [tryExtract, if_pos h]
      rw [List.flatten_cons, ih (buf.drop n.toNat)]
      rw [List.length_cons]
      have : ((iterChunks n k (buf.drop n.toNat)).length + 1) * n.toNat
          = n.toNat + (iterChunks n k (buf.drop n.toNat)).length * n.toNat := by
        ring
      rw [this, List.take_add]
    · rw [iterChunks]
      simp [tryExtract, if_neg h]

theorem workerStep_fst {μ : Type} (c : Collab μ)
    (fast_mode stream_output : Bool) (chunk_length : ℚ) (buf : List ℚ) :
    (workerStep c fast_mode stream_output chunk_length buf).1
      = (tryExtract buf (requiredSamples chunk_length)).2 := by
  rw [workerStep]
  rcases h : (tryExtract buf (requiredSamples chunk_length)).1 with _ | chunk <;>
    simp [h]

/- Claim theorems. -/

/-- Claim C1, counterexample: the claimed dichotomy "either exactly the
first n samples are removed and returned, or fewer than n samples are
held and the step returns not-ready leaving the buffer unchanged" fails
for the requested count computed from chunk length 0: the empty buffer
holds at least `requiredSamples 0 = 0` samples, yet the step returns
not-ready (the source's guard also demands `required_samples > 0`). -/
theorem C1_counterexample : ¬ extractDichotomy [] 0 := by
  have h0 : requiredSamples 0 = 0 := requiredSamples_eq_of 0 0 (by norm_num)
  intro h
  rcases h with ⟨chunk, rest, h1, h2, h3⟩ | ⟨h1, h2⟩
  · rw [h0] at h1
    simp [tryExtract] at h1
  · rw [h0] at h1
    simp at h1

/-- Claim C1, amended: for every requested count
`n = requiredSamples chunk_length` that is positive, the extraction step
either removes and returns exactly the first n samples (reducing the
buffer length by exactly n) or, when fewer than n samples are held,
returns not-ready and leaves the buffer completely unchanged; there is
no partial extraction. (For n ≤ 0 the step always returns not-ready with
the buffer unchanged, even though the buffer holds ≥ n samples.) -/
theorem C1_extract_all_or_nothing (buf : List ℚ) (chunk_length : ℚ)
    (h : 0 < requiredSamples chunk_length) :
    (requiredSamples chunk_length ≤ (buf.length : ℤ) →
      tryExtract buf (requiredSamples chunk_length)
          = (some (buf.take (requiredSamples chunk_length).toNat),
             buf.drop (requiredSamples chunk_length).toNat)
        ∧ (buf.take (requiredSamples chunk_length).toNat).length
            = (requiredSamples chunk_length).toNat
        ∧ buf.take (requiredSamples chunk_length).toNat
            ++ buf.drop (requiredSamples chunk_length).toNat = buf
        ∧ (buf.drop (requiredSamples chunk_length).toNat).length
            = buf.length - (requiredSamples chunk_length).toNat)
      ∧ ((buf.length : ℤ) < requiredSamples chunk_length →
          tryExtract buf (requiredSamples chunk_length) = (none, buf)) := by
  constructor
  · intro hle
    refine ⟨by simp [tryExtract, hle, h], ?_, List.take_append_drop _ _,
      List.length_drop _ _⟩
    rw [List.length_take]
    exact Nat.min_eq_left (by exact_mod_cast Int.toNat_le.mpr hle)
  · intro hlt
    simp [tryExtract, not_le.mpr hlt]

/-- Claim C1, witness: chunk length 1/16000 gives requested count 1; on
the two-sample buffer [3, 4] the step removes and returns exactly the
first sample. -/
theorem C1_witness :
    0 < requiredSamples (1/16000)
      ∧ tryExtract [3, 4] (requiredSamples (1/16000)) = (some [3], [4]) := by
  have hn : requiredSamples (1/16000) = 1 :=
    requiredSamples_eq_of _ 1 (by norm_num [SAMPLE_RATE])
  have h :=
    (C1_extract_all_or_nothing [3, 4] (1/16000) (by rw [hn]; norm_num)).1
      (by rw [hn]; decide)
  refine ⟨by rw [hn]; norm_num, ?_⟩
  rw [h.1, hn]
  decide

/-- Claim C2: for every finite sequence of append and extract operations
starting from the empty buffer, the sum of the successfully extracted
lengths plus the remaining buffer length equals the sum of all appended
lengths, and the concatenation of the extracted chunks is a prefix of
the concatenation of the appended samples — no sample is read twice or
skipped. -/
theorem C2_buffer_conservation (ops : List BufOp) :
    ((runOps ops).extracted.flatten).length + (runOps ops).buf.length
        = ((appendsOf ops).flatten).length
      ∧ (runOps ops).extracted.flatten <+: (appendsOf ops).flatten := by
  have h := foldl_applyOp_join ops ⟨[], []⟩
  simp only [runOps] at *
  simp only [List.flatten_nil, List.nil_append] at h
  constructor
  · rw [← h, List.length_append]
  · exact ⟨(ops.foldl applyOp ⟨[], []⟩).buf, h⟩

/-- Claim C3: the chunk offset equals max(0, onset − 0.2) when the onset
is known and 0 when it is missing; it is nonnegative for every onset
value; onset 0.1 gives offset 0 and onset 1.0 gives offset 0.8. -/
theorem C3_chunk_offset (onset : Option ℚ) (t : ℚ) :
    chunkOffset (some t) = max 0 (t - 1/5)
      ∧ chunkOffset none = 0
      ∧ 0 ≤ chunkOffset onset
      ∧ chunkOffset (some (1/10)) = 0
      ∧ chunkOffset (some 1) = 4/5 := by
  refine ⟨?_, rfl, ?_, by norm_num [chunkOffset], by norm_num [chunkOffset]⟩
  · simp only [chunkOffset]
    rcases lt_or_le (t - 1/5) 0 with h | h
    · rw [if_pos h, max_eq_left h.le]
    · rw [if_neg (not_lt.mpr h), max_eq_right h]
  · cases onset with
    | none => exact le_refl 0
    | some s =>
      simp only [chunkOffset]
      rcases lt_or_le (s - 1/5) 0 with h | h
      · rw [if_pos h]
      · rw [if_neg (not_lt.mpr h)]
        exact h

/-- Claim C4: for every processed frame whose sanitized transcription is
empty (whitespace only), if the trimmed audio's peak absolute amplitude
exceeds 0.05 then exactly one unclear-audio marker is emitted for that
frame, and if the peak is at or below 0.05 then no output at all is
produced for that frame. -/
theorem C4_empty_transcription_gating (t : String) (peak : ℚ)
    (stream_output : Bool) (h : pyStrip t = "") :
    (1/20 < peak →
      frameOutput t peak stream_output = [unclearMarker stream_output])
      ∧ (peak ≤ 1/20 → frameOutput t peak stream_output = []) := by
  constructor
  · intro hp
    have hp2 : (20 : ℚ)⁻¹ < peak := by rwa [one_div] at hp
    simp [frameOutput, h, hp2]
  · intro hp
    have hp2 : ¬ (20 : ℚ)⁻¹ < peak := by rw [← one_div]; exact not_lt.mpr hp
    simp [frameOutput, h, hp2]

/-- Claim C4, witness: the whitespace-only transcription " " with peak 1
emits exactly the unclear-audio marker, and with peak 1/100 emits
nothing. -/
theorem C4_witness :
    pyStrip " " = ""
      ∧ frameOutput " " 1 false = [unclearMarker false]
      ∧ frameOutput " " (1/100) false = [] := by
  have h1 := C4_empty_transcription_gating " " 1 false (by decide)
  have h2 := C4_empty_transcription_gating " " (1/100) false (by decide)
  exact ⟨by decide, h1.1 (by norm_num), h2.2 (by norm_num)⟩

/-- Claim C5, counterexample: a transcription consisting of a single
period with peak amplitude 1 (above 0.05) is classified non-meaningful,
yet produces no output at all — it does not yield the unclear-audio
marker, contradicting the claim that the peak-amplitude check decides
the output whenever the transcription is non-meaningful. -/
theorem C5_counterexample :
    meaningfulB "." = false
      ∧ (1 : ℚ)/20 < 1
      ∧ frameOutput "." 1 false = []
      ∧ frameOutput "." 1 false ≠ [unclearMarker false] := by
  have he : frameOutput "." 1 false = [] := by
    norm_num [frameOutput, pyStrip]
    decide
  refine ⟨by decide, by norm_num, he, ?_⟩
  rw [he]
  decide

/-- Claim C5, amended: the transcription is classified as meaningful
exactly when its stripped form is non-empty and not merely a period;
when it is non-meaningful, a stripped form equal to "." produces no
output regardless of the peak amplitude, and only an empty stripped form
reaches the 0.05 peak-amplitude check deciding between the unclear-audio
marker and no output. -/
theorem C5_meaningful_classification (t : String) (peak : ℚ)
    (stream_output : Bool) :
    (meaningfulB t = true ↔ (pyStrip t ≠ "" ∧ pyStrip t ≠ "."))
      ∧ (meaningfulB t = false →
          frameOutput t peak stream_output
            = if pyStrip t = "." then []
              else if 1/20 < peak then [unclearMarker stream_output]
              else []) := by
  constructor
  · simp [meaningfulB]
  · intro hm
    have hnot : ¬(pyStrip t ≠ "" ∧ pyStrip t ≠ ".") := by
      simpa [meaningfulB] using hm
    simp only [frameOutput, if_neg hnot]

/-- Claim C5, witness: the single-period transcription is classified
non-meaningful and, at peak 1, produces no output. -/
theorem C5_witness :
    meaningfulB "." = false ∧ frameOutput "." 1 false = [] := by
  have h := (C5_meaningful_classification "." 1 false).2 (by decide)
  refine ⟨by decide, ?_⟩
  rw [h]
  decide

/-- Claim C6, counterexample: the configuration with `--chunk-length 0`
(product with the sample rate is 0, hence invalid per the claim) is not
rejected at startup: `main`'s startup path accepts it and returns it to
the real-time loop; the worker then meets it mid-stream, where the
extraction guard returns not-ready forever. -/
theorem C6_counterexample :
    mainStartup true (some 0) "base" = Except.ok 0
      ∧ requiredSamples 0 = 0
      ∧ tryExtract [] (requiredSamples 0) = (none, []) := by
  have h0 : requiredSamples 0 = 0 := requiredSamples_eq_of 0 0 (by norm_num)
  refine ⟨rfl, h0, ?_⟩
  rw [h0]
  decide

/-- Claim C6, amended: an invalid chunk duration (product with the
sample rate zero or negative) is not rejected at startup — startup
accepts any chunk length, the only fatal startup faults being missing
backend resources — and the real-time loop does begin; mid-stream, the
worker's `required_samples > 0` guard makes every extraction attempt
return not-ready with the buffer unchanged, so no invalid-length chunk
is ever extracted or processed. -/
theorem C6_no_startup_rejection (chunk_length : ℚ) (variant : String)
    (buf : List ℚ) (h : requiredSamples chunk_length ≤ 0) :
    mainStartup true (some chunk_length) variant = Except.ok chunk_length
      ∧ tryExtract buf (requiredSamples chunk_length) = (none, buf) := by
  refine ⟨rfl, ?_⟩
  simp [tryExtract, not_lt.mpr h]

/-- Claim C6, witness: chunk length 0 with variant "base" is accepted at
startup and the worker's guard rejects extraction on the buffer [1]. -/
theorem C6_witness :
    requiredSamples 0 ≤ 0
      ∧ mainStartup true (some 0) "base" = Except.ok 0
      ∧ tryExtract [1] (requiredSamples 0) = (none, [1]) := by
  have h0 : requiredSamples 0 = 0 := requiredSamples_eq_of 0 0 (by norm_num)
  have h := C6_no_startup_rejection 0 "base" [1] (by rw [h0])
  exact ⟨by rw [h0], h.1, h.2⟩

/-- Claim C7: with fast mode enabled the trimmer is invoked with VAD
disabled, the returned onset is none, and the computed chunk offset is
0; with fast mode disabled the trimmer is invoked with VAD enabled.
(The trimmer is modelled from the spec, the source of
`improve_input_audio` being outside the embedded files.) -/
theorem C7_fast_mode_vad (trimF : List ℚ → Bool → List ℚ)
    (vadOnset : List ℚ → Option ℚ) (chunk : List ℚ) :
    (vadStage trimF vadOnset true chunk).1 = false
      ∧ (vadStage trimF vadOnset true chunk).2.1.2 = none
      ∧ (vadStage trimF vadOnset true chunk).2.2 = 0
      ∧ (vadStage trimF vadOnset false chunk).1 = true := by
  refine ⟨rfl, rfl, ?_, rfl⟩
  simp [vadStage, useVad, improve_input_audio, chunkOffset]

/-- Claim C8, counterexample: a chunk whose second frame's inference
raises a fault still emits the first frame's transcription — the claim
"emits no output for that chunk" fails for faults raised after earlier
frames of the same chunk have printed. With chunk length 2/16000
(requested count 2), buffer [1, 1] and the collaborator `cexCollab`,
the fault "boom" is logged, yet the output "[Transcription] hello" was
already emitted for the chunk. -/
theorem C8_counterexample :
    logsOf (workerStep cexCollab false false (2/16000) [1, 1]).2
        = ["Error: boom"]
      ∧ printsOf (workerStep cexCollab false false (2/16000) [1, 1]).2
          = ["[Transcription] hello"]
      ∧ printsOf (workerStep cexCollab false false (2/16000) [1, 1]).2 ≠ [] := by
  have h2 : requiredSamples (2/16000) = 2 :=
    requiredSamples_eq_of _ 2 (by norm_num [SAMPLE_RATE])
  have hw : (workerStep cexCollab false false (2/16000) [1, 1]).2
      = [Ev.submit 0, Ev.sleep (1/20), Ev.poll,
         Ev.print "[Transcription] hello",
         Ev.submit 1, Ev.sleep (1/20), Ev.poll, Ev.log "Error: boom"] := by
    rw [workerStep, h2]
    have ht : tryExtract [1, 1] 2 = (some [1, 1], []) := by decide
    rw [ht]
    simp only
    rw [if_pos (by decide : 0 < ([1, 1] : List ℚ).length)]
    rw [chunkProcess]
    simp [cexCollab, frameLoop, frameOutput, pyStrip]
  rw [hw]
  refine ⟨rfl, rfl, by decide⟩

/-- Claim C8, amended: a fault raised while processing a chunk is
logged, no output is emitted from the faulting point onward (frames
after the faulting one are never submitted, though output already
emitted for earlier frames of the same chunk stands), the buffer state
does not depend on the processing outcome at all — the extracted chunk
is consumed the same way under any collaborator behavior — and the
worker continues with the next chunk from that same buffer state. When
the fault is raised by trimming or by feature extraction, the trace is
exactly one log line and no output is emitted for the chunk. -/
theorem C8_fault_isolation {μ : Type} (c c2 : Collab μ)
    (fast_mode stream_output : Bool) (chunk_length : ℚ) (buf : List ℚ)
    (transcribe : μ → Except String String) (ts : μ → String) (peak : ℚ)
    (ms1 ms2 : List μ) (m : μ) (e : String) :
    (workerStep c fast_mode stream_output chunk_length buf).1
        = (workerStep c2 fast_mode stream_output chunk_length buf).1
      ∧ (∀ chunk, c.trim chunk (useVad fast_mode) = Except.error e →
          chunkProcess c fast_mode stream_output chunk_length chunk
            = [Ev.log ("Error: " ++ e)])
      ∧ (∀ improved onset chunk,
          c.trim chunk (useVad fast_mode) = Except.ok (improved, onset) →
          c.features improved chunk_length (chunkOffset onset)
              = Except.error e →
          chunkProcess c fast_mode stream_output chunk_length chunk
            = [Ev.log ("Error: " ++ e)])
      ∧ ((∀ x ∈ ms1, transcribe x = Except.ok (ts x)) →
          transcribe m = Except.error e →
          frameLoop transcribe peak stream_output (ms1 ++ m :: ms2)
            = frameLoop transcribe peak stream_output ms1
                ++ [Ev.submit m, Ev.sleep (1/20), Ev.poll,
                    Ev.log ("Error: " ++ e)]) := by
  refine ⟨?_, ?_, ?_, ?_⟩
  · rw [workerStep_fst, workerStep_fst]
  · intro chunk ht
    rw [chunkProcess, ht]
  · intro improved onset chunk ht hf
    rw [chunkProcess, ht]
    simp only
    rw [hf]
  · intro h1 h2
    exact frameLoop_fault transcribe ts peak stream_output ms1 ms2 m e h1 h2

/-- Claim C8, witness: a trimming fault produces exactly the log line
"Error: boom" and nothing else, and an inference fault on the single
frame of a chunk produces the submit-sleep-poll-log trace with no
output. -/
theorem C8_witness :
    chunkProcess cexTrim false false 1 [1] = [Ev.log "Error: boom"]
      ∧ frameLoop cexCollab.transcribe 1 false [1]
          = [Ev.submit 1, Ev.sleep (1/20), Ev.poll, Ev.log "Error: boom"] := by
  have h := C8_fault_isolation cexTrim cexCollab false false 1 [1]
    cexCollab.transcribe (fun _ => "") 1 [] [] 1 "boom"
  refine ⟨h.2.1 [1] rfl, ?_⟩
  have h4 := h.2.2.2 (by intro x hx; cases hx) rfl
  simpa using h4

/-- Claim C9: within a chunk, when every frame's inference succeeds, the
trace is exactly, for each frame in the order produced by the feature
extractor: one submission, one fixed 0.05 s delay, one poll, then that
frame's output — submissions and emissions follow the extractor's
order; and across chunks, successive extractions consume successive
windows of the buffer in strict FIFO arrival order (their concatenation
is an initial segment of the buffer contents). -/
theorem C9_ordering {μ : Type} (transcribe : μ → Except String String)
    (ts : μ → String) (peak : ℚ) (stream_output : Bool) (ms : List μ)
    (n : ℤ) (k : ℕ) (buf : List ℚ)
    (h : ∀ x ∈ ms, transcribe x = Except.ok (ts x)) :
    frameLoop transcribe peak stream_output ms
        = (ms.map fun m =>
            Ev.submit m :: Ev.sleep (1/20) :: Ev.poll ::
              (frameOutput (ts m) peak stream_output).map Ev.print).flatten
      ∧ (iterChunks n k buf).flatten
          = buf.take ((iterChunks n k buf).length * n.toNat) :=
  ⟨frameLoop_ok_shape transcribe ts peak stream_output ms h,
   iterChunks_join n k buf⟩

/-- Claim C9, witness: a single successful frame yields exactly
submit-sleep-poll-output, and two extractions of one sample each from
[5, 6] consume the two-sample initial segment in order. -/
theorem C9_witness :
    frameLoop (fun _ : ℕ => Except.ok "hi") 1 false [0]
        = [Ev.submit 0, Ev.sleep (1/20), Ev.poll,
           Ev.print "[Transcription] hi"]
      ∧ (iterChunks 1 2 [5, 6]).flatten
          = [5, 6].take ((iterChunks 1 2 [5, 6]).length * (1 : ℤ).toNat) := by
  have h := C9_ordering (fun _ : ℕ => Except.ok "hi") (fun _ => "hi") 1 false
    [0] 1 2 [5, 6] (by intro x hx; rfl)
  refine ⟨h.1.trans ?_, h.2⟩
  simp [frameOutput, pyStrip]

/-- Claim C10: the timing decorator is value-transparent — the wrapped
function returns exactly the result of the wrapped call whether the
timing-display flag is true or false; only the printed timing lines
differ. -/
theorem C10_timing_transparent {α β : Type} (f : α → β) (fname : String)
    (elapsed : ℚ) (SHOW_TIMING : Bool) (x : α) :
    (time_function f fname elapsed SHOW_TIMING x).1 = f x := by
  cases SHOW_TIMING <;> simp [time_function]

end RespeakerWhisper
